import Mathlib

/-!
Shallow embedding of the storefront application's client-side logic
(cart management, pickup-slot reservation, order placement, barcode
scanning, status-style mapping, phone-number formatting, and local
key-value storage usage), together with theorems settling the spec
claims about it.

Machine numbers (JS `number` quantities, prices, capacities) are
modelled as `Int`; strings as Lean `String`; nullable values as
`Option`; fallible remote calls as `Option`-valued environments.
Side-effecting screen handlers are modelled as pure functions from the
responses of their remote/storage reads to the list of effects they
emit (remote writes, storage writes, toasts, alerts, navigation).
-/

set_option autoImplicit false

namespace Storefront

/-- Line item of the client-side cart, as persisted under the
`cart` storage key (fields as used by `Cart.tsx`, `ProductCard.tsx`,
`ProductDetails.tsx`: a spread of the product plus a `quantity`). -/
structure CartItemType where
  id : String
  name : String
  price : Int
  quantity : Int
  deriving DecidableEq, Repr

/-- Product as handed to the add-to-cart handlers. -/
structure Product where
  id : String
  name : String
  price : Int
  deriving DecidableEq, Repr

/-- JavaScript `Array.prototype.findIndex`, with the `-1` failure
result rendered as `none`. -/
def findIndex {α : Type} (p : α → Bool) : List α → Option Nat
  | [] => none
  | x :: xs => if p x then some 0 else (findIndex p xs).map (· + 1)

/-- In-place element mutation `xs[idx] = f xs[idx]` on a JS array. -/
def modifyAt {α : Type} (f : α → α) : List α → Nat → List α
  | [], _ => []
  | x :: xs, 0 => f x :: xs
  | x :: xs, n + 1 => x :: modifyAt f xs n

/-- Cart item built by the spread `{...product, quantity}`. -/
def itemOf (p : Product) (qty : Int) : CartItemType :=
  { id := p.id, name := p.name, price := p.price, quantity := qty }

/-- Embedding of `handleAddToCart` in `ProductDetails.tsx`: find the
line item with the product's id; if present bump its quantity by the
selected `quantity`, else push `{...product, quantity}`. -/
def handleAddToCart (cart : List CartItemType) (product : Product) (quantity : Int) :
    List CartItemType :=
  match findIndex (fun it => it.id == product.id) cart with
  | some idx => modifyAt (fun it => { it with quantity := it.quantity + quantity }) cart idx
  | none => cart ++ [itemOf product quantity]

/-- Embedding of `handleAddToCart` in `ProductCard.tsx`: same lookup,
but the bump is always by 1 and the pushed item has quantity 1. -/
def productCardAddToCart (cart : List CartItemType) (product : Product) :
    List CartItemType :=
  match findIndex (fun item => item.id == product.id) cart with
  | some existingIndex =>
      modifyAt (fun item => { item with quantity := item.quantity + 1 }) cart existingIndex
  | none => cart ++ [itemOf product 1]

/-- Embedding of `handleAddToCart` in `feature/[featureTagId].tsx`:
same lookup, quantity incremented by 1 (`cart[idx].quantity++`) or a
new item with quantity 1 pushed. -/
def featureAddToCart (cart : List CartItemType) (product : Product) :
    List CartItemType :=
  match findIndex (fun c => c.id == product.id) cart with
  | some idx => modifyAt (fun c => { c with quantity := c.quantity + 1 }) cart idx
  | none => cart ++ [itemOf product 1]

/-- Embedding of `handleIncrement` in `Cart.tsx`:
`cart.map(i => i.id === id ? { ...i, quantity: i.quantity + 1 } : i)`. -/
def handleIncrement (cart : List CartItemType) (id : String) : List CartItemType :=
  cart.map fun i => if i.id == id then { i with quantity := i.quantity + 1 } else i

/-- Embedding of `handleDecrement` in `Cart.tsx`:
`cart.map(i => i.id === id && i.quantity > 1 ? { ...i, quantity: i.quantity - 1 } : i)`. -/
def handleDecrement (cart : List CartItemType) (id : String) : List CartItemType :=
  cart.map fun i =>
    if i.id == id && decide (i.quantity > 1) then { i with quantity := i.quantity - 1 } else i

/-- Embedding of `handleDelete` in `Cart.tsx`:
`cart.filter(i => i.id !== id)`. -/
def handleDelete (cart : List CartItemType) (id : String) : List CartItemType :=
  cart.filter fun i => i.id != id

/-- Observable effects emitted by a screen handler: remote table
calls, local key-value storage mutations, toasts/alerts and
navigation. Payloads that no claim inspects are elided; remote calls
carry their table name and storage mutations carry their key. -/
inductive Effect where
  | remoteInsert (tbl : String)
  | remoteSelect (tbl : String)
  | remoteUpdate (tbl : String)
  | remoteDelete (tbl : String)
  | storageSet (key : String)
  | storageRemove (key : String)
  | toast (kind : String)
  | alert (title : String)
  | navigate (screen : String)
  deriving DecidableEq, Repr

/-- Truthiness of a JS `string | null` value (`null` and the empty
string are falsy). -/
def truthy : Option String → Bool
  | none => false
  | some s => s ≠ ""

/-- Storage keys mutated by a trace of effects (both `setItem` and
`removeItem`). -/
def storageKeys (effs : List Effect) : List String :=
  effs.filterMap fun e =>
    match e with
    | .storageSet k => some k
    | .storageRemove k => some k
    | _ => none

/-! ### Cart.tsx: persist, clear, location-change effect, placeOrder -/

/-- Effects of the `persist` helper in `Cart.tsx`: always write the
`cart` key; then write `cartLocationId` when the new cart is non-empty
and a location is selected (`currentLocId` truthy), else remove it. -/
def persistEffects (newCart : List CartItemType) (currentLocId : Option String) :
    List Effect :=
  Effect.storageSet "cart" ::
    (if newCart.length > 0 && truthy currentLocId then
      [Effect.storageSet "cartLocationId"]
    else
      [Effect.storageRemove "cartLocationId"])

/-- Effects of `handleClearCart` in `Cart.tsx`. -/
def handleClearCartEffects : List Effect :=
  [Effect.storageRemove "cart", Effect.storageRemove "cartLocationId",
   Effect.toast "success"]

/-- Result of the mount-time location-change effect in `Cart.tsx`
(its effect trace and the in-memory cart it leaves behind). The saved
cart is cleared exactly when it is non-empty, a truthy `cartLocationId`
was saved, and that id differs from the currently selected location's
id (`null` when no location is selected). -/
def locationChangeEffect (currentLocId : Option String) (savedCartLocId : Option String)
    (savedCartArray : List CartItemType) : List Effect × List CartItemType :=
  if savedCartArray.length > 0 && truthy savedCartLocId &&
      !(savedCartLocId == currentLocId) then
    ([Effect.storageRemove "cart", Effect.toast "info"], [])
  else
    ([], savedCartArray)

/-- Environment of one `placeOrder` run in `Cart.tsx`: the responses
the remote store gives to its three writes/reads, in order. -/
structure PlaceOrderEnv where
  /-- `some orderId` when the insert into `orders` succeeds and
  returns a row, `none` on error or empty result. -/
  orderInsert : Option String
  /-- Ids returned by the availability check
  `from("products").select("id").in("id", cartIds)`. -/
  validProducts : List String
  /-- Whether the insert into `order_items` succeeds. -/
  itemsInsertOk : Bool

/-- Effect trace of `placeOrder` in `Cart.tsx`: guard on a selected
payment method, insert the order, check product availability, insert
the order items, and only on full success clear the cart storage and
navigate. Every early return emits exactly one error toast and
nothing after it. -/
def placeOrder (selectedPaymentId : Option String) (cart : List CartItemType)
    (env : PlaceOrderEnv) : List Effect :=
  match selectedPaymentId with
  | none => [Effect.toast "error"]
  | some _ =>
    Effect.remoteInsert "orders" ::
      match env.orderInsert with
      | none => [Effect.toast "error"]
      | some _orderId =>
        Effect.remoteSelect "products" ::
          if env.validProducts.length ≠ cart.length then
            [Effect.toast "error"]
          else
            Effect.remoteInsert "order_items" ::
              if env.itemsInsertOk then
                [Effect.storageRemove "cart", Effect.storageRemove "cartLocationId",
                 Effect.toast "success", Effect.navigate "OrderDetails"]
              else
                [Effect.toast "error"]

/-! ### PickUpTime.tsx: slot reservation -/

/-- Pickup slot: `type Slot = { time: string; capacity: number | null }`. -/
structure Slot where
  time : String
  capacity : Option Int
  deriving DecidableEq, Repr

/-- Capacity update written back by `confirmSelection`: each slot `s`
of the fetched `available_hours` becomes
`s.time === selectedSlot.time && s.capacity != null && s.capacity > 0
 ? { ...s, capacity: s.capacity - 1 } : s`. -/
def updatedHours (selTime : String) (hours : List Slot) : List Slot :=
  hours.map fun s =>
    match s.capacity with
    | some c => if s.time == selTime && decide (c > 0) then
        { s with capacity := some (c - 1) } else s
    | none => s

/-- One run of `confirmSelection` in `PickUpTime.tsx`, as its effect
trace paired with the payload of the remote update, when one is
issued. Inputs: the selected slot (if any), the re-fetched
`available_hours` (`none` on fetch error or missing row), and whether
the remote update succeeds. -/
def confirmSelection (selectedSlot : Option Slot) (fetched : Option (List Slot))
    (updateOk : Bool) : List Effect × Option (List Slot) :=
  match selectedSlot with
  | none => ([Effect.toast "error"], none)
  | some slot =>
    if slot.capacity == some 0 then
      ([Effect.toast "error"], none)
    else
      match fetched with
      | none => ([Effect.remoteSelect "location_pickup_schedules", Effect.toast "error"], none)
      | some hours =>
        let payload := updatedHours slot.time hours
        if updateOk then
          ([Effect.remoteSelect "location_pickup_schedules",
            Effect.remoteUpdate "location_pickup_schedules",
            Effect.storageSet "selectedPickupTime",
            Effect.storageSet "selectedPickupLabel",
            Effect.toast "success", Effect.navigate "(tabs)/Cart"], some payload)
        else
          ([Effect.remoteSelect "location_pickup_schedules",
            Effect.remoteUpdate "location_pickup_schedules",
            Effect.toast "error"], some payload)

/-! ### ScanBarcode.tsx -/

/-- Row fetched from `orders` by barcode:
`select("id, order_number, status")`. -/
structure ScannedOrder where
  id : String
  orderNumber : String
  status : String
  deriving DecidableEq, Repr

/-- One run of `handleBarcodeScanned` in `ScanBarcode.tsx`: its effect
trace paired with the order handed to the modal (if any). Inputs: the
scanning flag, the scanned barcode payload, and the result of the
single `orders` query (`none` on error or no row). -/
def handleBarcodeScanned (isScanning : Bool) (data : Option String)
    (fetched : Option ScannedOrder) : List Effect × Option ScannedOrder :=
  if !isScanning || !truthy data then ([], none)
  else
    match fetched with
    | none => ([Effect.remoteSelect "orders", Effect.alert "Error"], none)
    | some orderData => ([Effect.remoteSelect "orders"], some orderData)

/-- One run of `markCompleted` in `ScanBarcode.tsx`: its effect trace
paired with the status value the update writes (when an update is
issued). -/
def markCompleted (currentOrder : Option ScannedOrder) (updateOk : Bool) :
    List Effect × Option String :=
  match currentOrder with
  | none => ([], none)
  | some _ =>
    if updateOk then
      ([Effect.remoteUpdate "orders", Effect.alert "Success"], some "Completed")
    else
      ([Effect.remoteUpdate "orders", Effect.alert "Error"], some "Completed")

/-! ### Status-style mappings (Account.tsx, Orders.tsx, OrderDetails.tsx) -/

/-- Style classes returned by the `getStatusStyle` functions. -/
inductive StatusStyle where
  | completedStatus
  | inProgressStatus
  | readyForPickupStatus
  | pendingStatus
  | cancelledStatus
  deriving DecidableEq, Repr

/-- JavaScript `String.prototype.toLowerCase`, applied character by
character. -/
def toLowerCase (s : String) : String :=
  String.mk (s.data.map Char.toLower)

/-- Embedding of `getStatusStyle` in `Account.tsx`: switches on
`status.toLowerCase()`. -/
def accountGetStatusStyle (status : String) : StatusStyle :=
  match toLowerCase status with
  | "completed" => .completedStatus
  | "processing" | "ready" | "awaitingpickup" | "in progress" => .inProgressStatus
  | "ready for pickup" => .readyForPickupStatus
  | "pending" => .pendingStatus
  | "cancelled" => .cancelledStatus
  | _ => .pendingStatus

/-- Embedding of `getStatusStyle` in `Orders.tsx`: switches on the raw
`status`; note `"Pending"` and the default branch both return the
cancelled style. -/
def ordersGetStatusStyle (status : String) : StatusStyle :=
  match status with
  | "Completed" => .completedStatus
  | "Processing" | "Ready" | "AwaitingPickup" | "In Progress" => .inProgressStatus
  | "Ready for Pickup" => .readyForPickupStatus
  | "Pending" => .cancelledStatus
  | _ => .cancelledStatus

/-- Embedding of `getStatusStyle` in `OrderDetails.tsx`. -/
def orderDetailsGetStatusStyle (status : String) : StatusStyle :=
  match status with
  | "Completed" => .completedStatus
  | "Processing" | "Ready" | "AwaitingPickup" | "In Progress" => .inProgressStatus
  | "Ready for Pickup" => .readyForPickupStatus
  | "Pending" => .cancelledStatus
  | _ => .cancelledStatus

/-! ### EditProfile.tsx: formatPhoneNumber -/

/-- Embedding of `formatPhoneNumber` in `EditProfile.tsx`:
`value.replace(/\D/g, "").slice(0, 10)` keeps the first ten decimal
digits, which are then grouped `3-3-4`, `3-k`, or left ungrouped. -/
def formatPhoneNumber (value : String) : String :=
  let digits := (value.data.filter Char.isDigit).take 10
  if digits.length > 6 then
    String.mk (digits.take 3) ++ "-" ++ String.mk ((digits.drop 3).take 3) ++ "-"
      ++ String.mk (digits.drop 6)
  else if digits.length > 3 then
    String.mk (digits.take 3) ++ "-" ++ String.mk (digits.drop 3)
  else
    String.mk digits

/-! ### Remaining storage-writing operations -/

/-- Effects of `pick` in `SelectStore.tsx`. -/
def selectStorePick : List Effect :=
  [Effect.storageSet "selected_store_id", Effect.navigate "Login"]

/-- Effects of `handleUseCurrentLocation` in `SelectLocation.tsx`. -/
def handleUseCurrentLocation : List Effect :=
  [Effect.storageSet "selectedLocation", Effect.storageSet "location_id",
   Effect.toast "success", Effect.navigate "back"]

/-- Effects of `handleConfirmLocation` in `SelectLocation.tsx`:
guard on a selected location id, then on the location being found in
the loaded list. -/
def handleConfirmLocation (selectedLocationId : Option String) (found : Bool) :
    List Effect :=
  match selectedLocationId with
  | none => [Effect.toast "error"]
  | some _ =>
    if !found then []
    else
      [Effect.storageSet "selectedLocation", Effect.storageSet "location_id",
       Effect.toast "success", Effect.navigate "(tabs)/index"]

/-- Storage effects of the non-throwing run of `handleAddToCart` in
`ProductDetails.tsx` (the catch branch only shows an error toast). -/
def productDetailsAddEffects : List Effect :=
  [Effect.storageSet "cart", Effect.toast "success"]

/-- Storage effects of the non-throwing run of `handleAddToCart` in
`ProductCard.tsx`. -/
def productCardAddEffects : List Effect :=
  [Effect.storageSet "cart"]

/-- Storage effects of the non-throwing run of `handleAddToCart` in
`feature/[featureTagId].tsx`. -/
def featureAddEffects : List Effect :=
  [Effect.storageSet "cart", Effect.toast "success"]

/-- Storage effects of the non-throwing run of `handleAddToCart` in
`EmployeeHistory.tsx`. -/
def employeeHistoryAddEffects : List Effect :=
  [Effect.storageSet "cart", Effect.toast "success"]

/-- Storage effects of the non-throwing run of `handleAddToCart` in
`EmployeeView.tsx`. -/
def employeeViewAddEffects : List Effect :=
  [Effect.storageSet "cart"]

/-- Storage effects of the non-throwing run of `reorderItems` in
`OrderDetails.tsx`. -/
def reorderItemsEffects : List Effect :=
  [Effect.storageSet "cart", Effect.toast "success"]

/-- Cart storage keys (the persisted cart and the id of the location
it was filled for). -/
def cartKeys : List String := ["cart", "cartLocationId"]

/-- Selected-location preference keys. -/
def selectedLocationKeys : List String :=
  ["selectedLocation", "location_id", "selected_store_id"]

/-- Selected-pickup-time preference keys, written by
`confirmSelection` in `PickUpTime.tsx`. -/
def pickupTimeKeys : List String :=
  ["selectedPickupTime", "selectedPickupLabel"]

/-! ### JSON values, for the cart round-trip claim -/

/-- JSON value tree, the common shape of `JSON.stringify` input and
`JSON.parse` output. -/
inductive Json where
  | null
  | bool (b : Bool)
  | num (n : Int)
  | str (s : String)
  | arr (xs : List Json)
  | obj (fields : List (String × Json))

/-- JSON object produced for one cart line item by
`JSON.stringify(newCart)` in `persist`. -/
def encodeCartItem (i : CartItemType) : Json :=
  Json.obj [("id", Json.str i.id), ("name", Json.str i.name),
    ("price", Json.num i.price), ("quantity", Json.num i.quantity)]

/-- Reading of one cart line item from a parsed JSON value, as
`JSON.parse` restricted to the cart-item shape. -/
def decodeCartItem : Json → Option CartItemType
  | Json.obj [("id", Json.str id), ("name", Json.str name),
      ("price", Json.num price), ("quantity", Json.num quantity)] =>
    some { id := id, name := name, price := price, quantity := quantity }
  | _ => none

/-- Reading of a list of cart line items, element by element. -/
def decodeCartList : List Json → Option (List CartItemType)
  | [] => some []
  | x :: xs =>
    match decodeCartItem x, decodeCartList xs with
    | some i, some rest => some (i :: rest)
    | _, _ => none

/-- JSON value stored under the `cart` key by `persist`. -/
def encodeCart (c : List CartItemType) : Json :=
  Json.arr (c.map encodeCartItem)

/-- Reading of the stored cart value back into a cart list, as done by
the `JSON.parse(saved)` loads of the cart key. -/
def decodeCart : Json → Option (List CartItemType)
  | Json.arr xs => decodeCartList xs
  | _ => none

/-! ### Reachability of cart states through the Cart-screen handlers -/

/-- Single step of the Cart screen's quantity-changing handlers. -/
inductive CartStep : List CartItemType → List CartItemType → Prop
  | inc (cart : List CartItemType) (id : String) : CartStep cart (handleIncrement cart id)
  | dec (cart : List CartItemType) (id : String) : CartStep cart (handleDecrement cart id)
  | del (cart : List CartItemType) (id : String) : CartStep cart (handleDelete cart id)

/-- Cart states reachable from a starting cart by the Cart-screen
handlers. -/
def CartReachable : List CartItemType → List CartItemType → Prop :=
  Relation.ReflTransGen CartStep

/-- Invariant: every line item's quantity is at least 1. -/
def QuantitiesAtLeastOne (cart : List CartItemType) : Prop :=
  ∀ i ∈ cart, 1 ≤ i.quantity

/-! ### Helper lemmas on findIndex and modifyAt -/

theorem findIndex_eq_none {α : Type} (p : α → Bool) (l : List α)
    (h : ∀ x ∈ l, ¬ p x) : findIndex p l = none := by
  induction l with
  | nil => rfl
  | cons x xs ih =>
    have hx : p x = false := by
      have := h x (List.mem_cons_self x xs)
      simp_all
    simp [findIndex, hx, ih fun y hy => h y (List.mem_cons_of_mem x hy)]

theorem findIndex_first_match {α : Type} (p : α → Bool) (l : List α)
    (h : ∃ x ∈ l, p x) :
    ∃ pre y post, l = pre ++ y :: post ∧ p y ∧ (∀ x ∈ pre, ¬ p x) ∧
      findIndex p l = some pre.length ∧
      ∀ g : α → α, modifyAt g l pre.length = pre ++ g y :: post := by
  induction l with
  | nil => simp at h
  | cons x xs ih =>
    by_cases hx : p x
    · exact ⟨[], x, xs, rfl, hx, by simp, by simp [findIndex, hx], fun g => rfl⟩
    · obtain ⟨y, hy, hpy⟩ := h
      rcases List.mem_cons.mp hy with hyx | hyxs
      · exact absurd (hyx ▸ hpy) hx
      · obtain ⟨pre, y, post, hsplit, hpy, hpre, hfind, hmod⟩ := ih ⟨y, hyxs, hpy⟩
        refine ⟨x :: pre, y, post, by simp [hsplit], hpy, ?_, ?_, ?_⟩
        · intro z hz
          rcases List.mem_cons.mp hz with hzx | hzpre
          · exact hzx ▸ hx
          · exact hpre z hzpre
        · simp [findIndex, hx, hfind]
        · intro g
          simp [modifyAt, hmod g]

/-- C1: adding a product already in the locally stored cart bumps the
first matching line item's quantity (by the selected quantity in
`ProductDetails`, by 1 in `ProductCard` and the feature screen) and
keeps the number of line items unchanged; adding a product not in the
cart appends one new line item with that product and the selected
quantity. Quantified over every cart list and product. -/
theorem addToCart_increments_or_appends :
    ∀ (cart : List CartItemType) (p : Product) (q : Int),
      ((∀ it ∈ cart, it.id ≠ p.id) →
        handleAddToCart cart p q = cart ++ [itemOf p q] ∧
        productCardAddToCart cart p = cart ++ [itemOf p 1] ∧
        featureAddToCart cart p = cart ++ [itemOf p 1]) ∧
      ((∃ it ∈ cart, it.id = p.id) →
        ∃ pre it post, cart = pre ++ it :: post ∧ it.id = p.id ∧
          (∀ x ∈ pre, x.id ≠ p.id) ∧
          handleAddToCart cart p q =
            pre ++ { it with quantity := it.quantity + q } :: post ∧
          productCardAddToCart cart p =
            pre ++ { it with quantity := it.quantity + 1 } :: post ∧
          featureAddToCart cart p =
            pre ++ { it with quantity := it.quantity + 1 } :: post ∧
          (handleAddToCart cart p q).length = cart.length) := by
  intro cart p q
  constructor
  · intro h
    have hnone : findIndex (fun it : CartItemType => it.id == p.id) cart = none :=
      findIndex_eq_none _ _ (fun x hx => by simp [h x hx])
    refine ⟨?_, ?_, ?_⟩ <;>
      simp [handleAddToCart, productCardAddToCart, featureAddToCart, hnone]
  · intro h
    obtain ⟨pre, y, post, hsplit, hpy, hpre, hfind, hmod⟩ :=
      findIndex_first_match (fun it : CartItemType => it.id == p.id) cart
        (by obtain ⟨it, hmem, hid⟩ := h; exact ⟨it, hmem, by simp [hid]⟩)
    have h1 : handleAddToCart cart p q =
        pre ++ { y with quantity := y.quantity + q } :: post := by
      simp [handleAddToCart, hfind, hmod]
    refine ⟨pre, y, post, hsplit, by simpa using hpy,
      fun x hx => by simpa using hpre x hx, h1, ?_, ?_, ?_⟩
    · simp [productCardAddToCart, hfind, hmod]
    · simp [featureAddToCart, hfind, hmod]
    · rw [h1, hsplit]
      simp

/-- Witness for C1 at concrete carts: a fresh product is appended, and
a product already present has its line item's quantity bumped while
the cart keeps one line item. -/
theorem addToCart_increments_or_appends_witness :
    handleAddToCart [⟨"b", "B", 4, 1⟩] ⟨"a", "A", 5⟩ 2 =
      [⟨"b", "B", 4, 1⟩, itemOf ⟨"a", "A", 5⟩ 2] ∧
    (handleAddToCart [⟨"a", "A", 5, 2⟩] ⟨"a", "A", 5⟩ 3).length = 1 := by
  constructor
  · exact ((addToCart_increments_or_appends [⟨"b", "B", 4, 1⟩] ⟨"a", "A", 5⟩ 2).1
      (by decide)).1
  · obtain ⟨pre, it, post, _, _, _, _, _, _, hlen⟩ :=
      (addToCart_increments_or_appends [⟨"a", "A", 5, 2⟩] ⟨"a", "A", 5⟩ 3).2
        ⟨⟨"a", "A", 5, 2⟩, by simp, rfl⟩
    simpa using hlen

/-- Single Cart-screen steps preserve the quantity invariant. -/
theorem cartStep_preserves_quantities {a b : List CartItemType}
    (hab : CartStep a b) (ha : QuantitiesAtLeastOne a) : QuantitiesAtLeastOne b := by
  cases hab with
  | inc pid =>
    intro i hi
    simp only [handleIncrement, List.mem_map] at hi
    obtain ⟨j, hj, rfl⟩ := hi
    have hq := ha j hj
    by_cases hid : (j.id == pid) = true <;> simp [hid] <;> omega
  | dec pid =>
    intro i hi
    simp only [handleDecrement, List.mem_map] at hi
    obtain ⟨j, hj, rfl⟩ := hi
    have hq1 := ha j hj
    by_cases hid : (j.id == pid) = true <;> by_cases hq : (1 : Int) < j.quantity <;>
      simp [hid, hq] <;> omega
  | del pid =>
    intro i hi
    exact ha i (List.mem_of_mem_filter hi)

/-- C8: on the Cart screen, `handleIncrement` bumps exactly the
matching items by 1, `handleDecrement` lowers a matching item by 1
only when its quantity exceeds 1 (an item at quantity 1 stays, and is
never removed or taken to 0), `handleDelete` removes exactly the items
with the given id, and every cart reachable from a cart whose
quantities are all at least 1 again has all quantities at least 1. -/
theorem cartScreen_quantity_invariant :
    ∀ (cart : List CartItemType) (id : String),
      (∀ k : Nat, (handleIncrement cart id)[k]? =
          cart[k]?.map fun i =>
            if i.id = id then { i with quantity := i.quantity + 1 } else i) ∧
      (∀ k : Nat, (handleDecrement cart id)[k]? =
          cart[k]?.map fun i =>
            if i.id = id ∧ 1 < i.quantity then { i with quantity := i.quantity - 1 }
            else i) ∧
      (∀ x : CartItemType, x ∈ handleDelete cart id ↔ x ∈ cart ∧ x.id ≠ id) ∧
      (∀ start : List CartItemType, QuantitiesAtLeastOne start →
        CartReachable start cart → QuantitiesAtLeastOne cart) := by
  intro cart id
  refine ⟨?_, ?_, ?_, ?_⟩
  · intro k
    simp only [handleIncrement, List.getElem?_map]
    cases h : cart[k]? with
    | none => rfl
    | some a =>
      by_cases hid : a.id = id <;> simp [hid]
  · intro k
    simp only [handleDecrement, List.getElem?_map]
    cases h : cart[k]? with
    | none => rfl
    | some a =>
      by_cases hid : a.id = id <;> by_cases hq : (1 : Int) < a.quantity <;>
        simp [hid, hq]
  · intro x
    simp [handleDelete, List.mem_filter]
  · intro start hstart hreach
    induction hreach with
    | refl => exact hstart
    | tail _hab hbc ih => exact cartStep_preserves_quantities hbc ih

/-- Witness for C8: from the singleton cart at quantity 1, one
decrement step reaches a cart that still satisfies the invariant. -/
theorem cartScreen_quantity_invariant_witness :
    QuantitiesAtLeastOne (handleDecrement [⟨"a", "A", 2, 1⟩] "a") := by
  refine (cartScreen_quantity_invariant (handleDecrement [⟨"a", "A", 2, 1⟩] "a")
      "a").2.2.2 [⟨"a", "A", 2, 1⟩] ?_ ?_
  · intro i hi
    simp only [List.mem_singleton] at hi
    simp [hi]
  · exact Relation.ReflTransGen.single (CartStep.dec _ _)

/-- C2: the pickup-slot reservation is a plain read-modify-write.
When the selected slot's capacity is not 0, `confirmSelection`
re-fetches the day's `available_hours` and writes back a list in which
each slot with the selected time and a non-null positive capacity has
its capacity decreased by exactly 1 while every other slot (different
time, null capacity, or non-positive capacity) is unchanged; when the
selected slot's capacity equals 0 or the re-fetch fails, no remote
write is issued. -/
theorem confirmSelection_read_modify_write :
    ∀ (slot : Slot) (hours : List Slot) (updateOk : Bool),
      (slot.capacity ≠ some 0 →
        Effect.remoteSelect "location_pickup_schedules" ∈
          (confirmSelection (some slot) (some hours) updateOk).1 ∧
        (confirmSelection (some slot) (some hours) updateOk).2 =
          some (updatedHours slot.time hours)) ∧
      ((updatedHours slot.time hours).length = hours.length) ∧
      (∀ (k : Nat) (s : Slot) (c : Int), hours[k]? = some s →
        (s.time = slot.time → s.capacity = some c → 0 < c →
          (updatedHours slot.time hours)[k]? =
            some { s with capacity := some (c - 1) }) ∧
        (s.time ≠ slot.time ∨ s.capacity = none ∨ (s.capacity = some c ∧ c ≤ 0) →
          (updatedHours slot.time hours)[k]? = some s)) ∧
      (slot.capacity = some 0 →
        Effect.remoteUpdate "location_pickup_schedules" ∉
          (confirmSelection (some slot) (some hours) updateOk).1) ∧
      (Effect.remoteUpdate "location_pickup_schedules" ∉
        (confirmSelection (some slot) none updateOk).1) := by
  intro slot hours updateOk
  refine ⟨?_, ?_, ?_, ?_, ?_⟩
  · intro h
    have hbeq : (slot.capacity == some 0) = false := by
      simpa using h
    cases updateOk <;> simp [confirmSelection, hbeq]
  · simp [updatedHours]
  · intro k s c hk
    constructor
    · intro htime hcap hpos
      simp [updatedHours, List.getElem?_map, hk, hcap, htime, hpos]
    · intro hother
      rcases hother with htime | hcap | ⟨hcap, hnonpos⟩
      · cases hc : s.capacity with
        | none => simp [updatedHours, List.getElem?_map, hk, hc]
        | some c0 =>
          have hb : (s.time == slot.time) = false := by simpa using htime
          simp [updatedHours, List.getElem?_map, hk, hc, hb]
          intro h
          exact absurd h htime
      · simp [updatedHours, List.getElem?_map, hk, hcap]
      · have : ¬ (0 : Int) < c := by omega
        simp [updatedHours, List.getElem?_map, hk, hcap, this]
  · intro h
    cases updateOk <;> simp [confirmSelection, h]
  · have : ∀ b, Effect.remoteUpdate "location_pickup_schedules" ∉
        (confirmSelection (some slot) none b).1 := by
      intro b
      by_cases h : (slot.capacity == some 0) = true <;>
        cases b <;> simp [confirmSelection, h]
    exact this updateOk

/-- Witness for C2 at a concrete slot list: the matching positive slot
drops from capacity 2 to 1 and the null-capacity slot is unchanged. -/
theorem confirmSelection_read_modify_write_witness :
    (confirmSelection (some ⟨"10:00", some 2⟩)
        (some [⟨"10:00", some 2⟩, ⟨"11:00", none⟩]) true).2 =
      some [⟨"10:00", some 1⟩, ⟨"11:00", none⟩] := by
  have h := (confirmSelection_read_modify_write ⟨"10:00", some 2⟩
      [⟨"10:00", some 2⟩, ⟨"11:00", none⟩] true).1 (by decide)
  rw [h.2]
  rfl

/-- C3: after the order row has been inserted successfully,
`placeOrder` performs no compensating transaction and no retry. If the
availability check comes back short or the `order_items` insert fails,
the trace ends in exactly one error toast, contains no delete or
update of any table (the inserted order row stays), no storage
mutation (the cart keys stay), and no remote call after the failed
step; the cart storage is cleared exactly on full success. -/
theorem placeOrder_no_compensation :
    ∀ (pid : String) (cart : List CartItemType) (env : PlaceOrderEnv) (oid : String),
      env.orderInsert = some oid →
      (env.validProducts.length ≠ cart.length →
        placeOrder (some pid) cart env =
          [Effect.remoteInsert "orders", Effect.remoteSelect "products",
           Effect.toast "error"]) ∧
      (env.validProducts.length = cart.length → env.itemsInsertOk = false →
        placeOrder (some pid) cart env =
          [Effect.remoteInsert "orders", Effect.remoteSelect "products",
           Effect.remoteInsert "order_items", Effect.toast "error"]) ∧
      (env.validProducts.length ≠ cart.length ∨ env.itemsInsertOk = false →
        (placeOrder (some pid) cart env).count (Effect.toast "error") = 1 ∧
        (∀ t, Effect.remoteDelete t ∉ placeOrder (some pid) cart env) ∧
        (∀ t, Effect.remoteUpdate t ∉ placeOrder (some pid) cart env) ∧
        (∀ k, Effect.storageSet k ∉ placeOrder (some pid) cart env) ∧
        (∀ k, Effect.storageRemove k ∉ placeOrder (some pid) cart env) ∧
        (placeOrder (some pid) cart env).getLast? = some (Effect.toast "error")) ∧
      (Effect.storageRemove "cart" ∈ placeOrder (some pid) cart env ↔
        env.validProducts.length = cart.length ∧ env.itemsInsertOk = true) := by
  intro pid cart env oid h
  refine ⟨?_, ?_, ?_, ?_⟩
  · intro hne
    simp [placeOrder, h, hne]
  · intro heq hfail
    simp [placeOrder, h, heq, hfail]
  · intro hfailure
    rcases hfailure with hne | hfail
    · simp [placeOrder, h, hne]
    · by_cases heq : env.validProducts.length = cart.length
      · simp [placeOrder, h, heq, hfail]
      · simp [placeOrder, h, heq]
  · by_cases heq : env.validProducts.length = cart.length
    · cases hins : env.itemsInsertOk <;> simp [placeOrder, h, heq, hins]
    · simp [placeOrder, h, heq]

/-- Witness for C3: with one cart line, a successful order insert and
an empty availability result, the run stops right after the check with
a single error toast. -/
theorem placeOrder_no_compensation_witness :
    placeOrder (some "pay1") [⟨"a", "A", 5, 1⟩]
        ⟨some "order1", [], false⟩ =
      [Effect.remoteInsert "orders", Effect.remoteSelect "products",
       Effect.toast "error"] :=
  (placeOrder_no_compensation "pay1" [⟨"a", "A", 5, 1⟩]
      ⟨some "order1", [], false⟩ "order1" rfl).1 (by decide)

/-- C4 counterexample: the three `getStatusStyle` functions are not
the same mapping. On the status string `"Pending"` the Account screen
returns the pending style while the Orders screen returns the
cancelled style; the case handling also differs, as `"completed"`
shows. -/
theorem statusStyle_mappings_differ :
    accountGetStatusStyle "Pending" = StatusStyle.pendingStatus ∧
    ordersGetStatusStyle "Pending" = StatusStyle.cancelledStatus ∧
    accountGetStatusStyle "Pending" ≠ ordersGetStatusStyle "Pending" ∧
    accountGetStatusStyle "completed" = StatusStyle.completedStatus ∧
    ordersGetStatusStyle "completed" = StatusStyle.cancelledStatus := by
  refine ⟨rfl, rfl, ?_, ?_, rfl⟩
  · decide
  · decide

/-- C4 amended: the Orders and OrderDetails screens share one
status-style mapping for every status string; the Account screen's
mapping differs from it (Account lowercases the status, sends pending
and unrecognized statuses to the pending style and has a cancelled
case, while the other two send `"Pending"` and unrecognized statuses
to the cancelled style). -/
theorem ordersAndOrderDetails_statusStyle_agree :
    ∀ status : String,
      ordersGetStatusStyle status = orderDetailsGetStatusStyle status :=
  fun _ => rfl

/-- C6: a failed or empty barcode lookup performs no remote write and
no further query and surfaces exactly one error alert; scanning never
updates any table, and only `markCompleted`, on a fetched order,
issues the `orders` update, whose written status is `"Completed"`. -/
theorem barcodeScan_error_path :
    ∀ (data : Option String) (fetched : Option ScannedOrder)
      (order : ScannedOrder) (ok : Bool),
      (truthy data = true →
        handleBarcodeScanned true data none =
          ([Effect.remoteSelect "orders", Effect.alert "Error"], none) ∧
        (handleBarcodeScanned true data none).1.count (Effect.alert "Error") = 1 ∧
        (handleBarcodeScanned true data none).1.count
          (Effect.remoteSelect "orders") = 1) ∧
      (∀ t, Effect.remoteUpdate t ∉ (handleBarcodeScanned true data fetched).1) ∧
      (∀ t, Effect.remoteInsert t ∉ (handleBarcodeScanned true data fetched).1) ∧
      (handleBarcodeScanned false data fetched = ([], none)) ∧
      ((markCompleted (some order) ok).2 = some "Completed" ∧
        Effect.remoteUpdate "orders" ∈ (markCompleted (some order) ok).1) ∧
      (markCompleted none ok = ([], none)) := by
  intro data fetched order ok
  refine ⟨?_, ?_, ?_, ?_, ?_, ?_⟩
  · intro h
    refine ⟨?_, ?_, ?_⟩ <;> simp [handleBarcodeScanned, h]
  · intro t
    by_cases h : truthy data = true
    · cases fetched <;> simp [handleBarcodeScanned, h]
    · simp only [Bool.not_eq_true] at h
      simp [handleBarcodeScanned, h]
  · intro t
    by_cases h : truthy data = true
    · cases fetched <;> simp [handleBarcodeScanned, h]
    · simp only [Bool.not_eq_true] at h
      simp [handleBarcodeScanned, h]
  · simp [handleBarcodeScanned]
  · cases ok <;> simp [markCompleted]
  · cases ok <;> simp [markCompleted]

/-- Witness for C6: a scan of barcode `"XYZ"` whose lookup fails
emits one query and one error alert and opens no order. -/
theorem barcodeScan_error_path_witness :
    handleBarcodeScanned true (some "XYZ") none =
      ([Effect.remoteSelect "orders", Effect.alert "Error"], none) :=
  ((barcodeScan_error_path (some "XYZ") none ⟨"o1", "1001", "Pending"⟩ true).1
    (by decide)).1

/-! ### Helper lemmas for formatPhoneNumber -/

theorem phoneDigits_all_digit (value : String) :
    ∀ c ∈ (value.data.filter Char.isDigit).take 10, Char.isDigit c :=
  fun _c hc => List.of_mem_filter (List.mem_of_mem_take hc)

theorem filter_digits_eq_self {l : List Char} (h : ∀ c ∈ l, Char.isDigit c) :
    l.filter Char.isDigit = l :=
  List.filter_eq_self.mpr h

theorem formatPhoneNumber_data_long (value : String)
    (h6 : 6 < ((value.data.filter Char.isDigit).take 10).length) :
    (formatPhoneNumber value).data =
      ((value.data.filter Char.isDigit).take 10).take 3 ++ ['-'] ++
        (((value.data.filter Char.isDigit).take 10).drop 3).take 3 ++ ['-'] ++
        ((value.data.filter Char.isDigit).take 10).drop 6 := by
  simp only [formatPhoneNumber]
  rw [if_pos (by omega)]
  simp [String.data_append]

theorem formatPhoneNumber_data_mid (value : String)
    (h6 : ¬ 6 < ((value.data.filter Char.isDigit).take 10).length)
    (h3 : 3 < ((value.data.filter Char.isDigit).take 10).length) :
    (formatPhoneNumber value).data =
      ((value.data.filter Char.isDigit).take 10).take 3 ++ ['-'] ++
        ((value.data.filter Char.isDigit).take 10).drop 3 := by
  simp only [formatPhoneNumber]
  rw [if_neg (by omega), if_pos (by omega)]
  simp [String.data_append]

theorem formatPhoneNumber_data_short (value : String)
    (h3 : ¬ 3 < ((value.data.filter Char.isDigit).take 10).length) :
    (formatPhoneNumber value).data = (value.data.filter Char.isDigit).take 10 := by
  simp only [formatPhoneNumber]
  rw [if_neg (by omega), if_neg (by omega)]

theorem formatPhoneNumber_digits (value : String) :
    (formatPhoneNumber value).data.filter Char.isDigit =
      (value.data.filter Char.isDigit).take 10 := by
  have hall := phoneDigits_all_digit value
  by_cases h6 : 6 < ((value.data.filter Char.isDigit).take 10).length
  · rw [formatPhoneNumber_data_long value h6]
    simp only [List.filter_append]
    rw [filter_digits_eq_self fun c hc => hall c (List.mem_of_mem_take hc),
      filter_digits_eq_self fun c hc =>
        hall c (List.mem_of_mem_drop (List.mem_of_mem_take hc)),
      filter_digits_eq_self fun c hc => hall c (List.mem_of_mem_drop hc)]
    have hhy : List.filter Char.isDigit ['-'] = [] := rfl
    rw [hhy]
    have hdrop : (((value.data.filter Char.isDigit).take 10).drop 3).drop 3 =
        ((value.data.filter Char.isDigit).take 10).drop 6 := by
      rw [List.drop_drop]
    calc ((value.data.filter Char.isDigit).take 10).take 3 ++ [] ++
          (((value.data.filter Char.isDigit).take 10).drop 3).take 3 ++ [] ++
          ((value.data.filter Char.isDigit).take 10).drop 6
        = ((value.data.filter Char.isDigit).take 10).take 3 ++
            ((((value.data.filter Char.isDigit).take 10).drop 3).take 3 ++
              (((value.data.filter Char.isDigit).take 10).drop 3).drop 3) := by
          rw [hdrop]; simp [List.append_assoc]
      _ = (value.data.filter Char.isDigit).take 10 := by
          rw [List.take_append_drop, List.take_append_drop]
  · by_cases h3 : 3 < ((value.data.filter Char.isDigit).take 10).length
    · rw [formatPhoneNumber_data_mid value h6 h3]
      simp only [List.filter_append]
      rw [filter_digits_eq_self fun c hc => hall c (List.mem_of_mem_take hc),
        filter_digits_eq_self fun c hc => hall c (List.mem_of_mem_drop hc)]
      have hhy : List.filter Char.isDigit ['-'] = [] := rfl
      rw [hhy]
      simp [List.take_append_drop]
    · rw [formatPhoneNumber_data_short value h3]
      exact filter_digits_eq_self hall

theorem formatPhoneNumber_congr {v w : String}
    (h : (v.data.filter Char.isDigit).take 10 =
      (w.data.filter Char.isDigit).take 10) :
    formatPhoneNumber v = formatPhoneNumber w := by
  simp only [formatPhoneNumber, h]

/-- C9: `formatPhoneNumber` is idempotent and bounded. Its output
holds at most ten digits, which are exactly the first ten digits of
the input in order; they are grouped `3-3-4` with hyphens (`3-k` with
four to six digits, ungrouped with three or fewer); and applying the
function to its own output reproduces it. -/
theorem formatPhoneNumber_idempotent_bounded :
    ∀ value : String,
      (formatPhoneNumber value).data.filter Char.isDigit =
        (value.data.filter Char.isDigit).take 10 ∧
      ((formatPhoneNumber value).data.filter Char.isDigit).length ≤ 10 ∧
      formatPhoneNumber (formatPhoneNumber value) = formatPhoneNumber value ∧
      (6 < ((value.data.filter Char.isDigit).take 10).length →
        (formatPhoneNumber value).data =
          ((value.data.filter Char.isDigit).take 10).take 3 ++ ['-'] ++
            (((value.data.filter Char.isDigit).take 10).drop 3).take 3 ++ ['-'] ++
            ((value.data.filter Char.isDigit).take 10).drop 6) ∧
      (3 < ((value.data.filter Char.isDigit).take 10).length →
        ((value.data.filter Char.isDigit).take 10).length ≤ 6 →
        (formatPhoneNumber value).data =
          ((value.data.filter Char.isDigit).take 10).take 3 ++ ['-'] ++
            ((value.data.filter Char.isDigit).take 10).drop 3) ∧
      (((value.data.filter Char.isDigit).take 10).length ≤ 3 →
        (formatPhoneNumber value).data =
          (value.data.filter Char.isDigit).take 10) := by
  intro value
  refine ⟨formatPhoneNumber_digits value, ?_, ?_, ?_, ?_, ?_⟩
  · rw [formatPhoneNumber_digits value]
    exact le_trans (List.length_take_le 10 _) (le_refl 10)
  · apply formatPhoneNumber_congr
    rw [formatPhoneNumber_digits value, List.take_take]
    norm_num
  · exact fun h6 => formatPhoneNumber_data_long value h6
  · exact fun h3 h6 => formatPhoneNumber_data_mid value (by omega) h3
  · exact fun h3 => formatPhoneNumber_data_short value (by omega)

/-- Witness for C9 on a concrete input with punctuation and excess
digits: the first ten digits come out grouped `3-3-4`, and a second
application changes nothing. -/
theorem formatPhoneNumber_idempotent_bounded_witness :
    formatPhoneNumber "(123) 456-78901111" = "123-456-7890" ∧
    formatPhoneNumber (formatPhoneNumber "(123) 456-78901111") =
      formatPhoneNumber "(123) 456-78901111" := by
  constructor
  · have h := (formatPhoneNumber_idempotent_bounded "(123) 456-78901111").2.2.2.1
      (by decide)
    have hdata : (formatPhoneNumber "(123) 456-78901111").data =
        "123-456-7890".data := by
      rw [h]; decide
    exact congrArg String.mk hdata
  · exact (formatPhoneNumber_idempotent_bounded "(123) 456-78901111").2.2.1

/-- Decoding inverts encoding on every cart item list. -/
theorem decodeCartList_encode (c : List CartItemType) :
    decodeCartList (c.map encodeCartItem) = some c := by
  induction c with
  | nil => rfl
  | cons i rest ih => simp [decodeCartList, decodeCartItem, encodeCartItem, ih]

/-- C7: the cart persisted by `persist` round-trips — parsing the
serialized cart yields the cart back for every cart list — and the
`cartLocationId` key is set exactly when the new cart is non-empty and
a location is selected, and removed otherwise. -/
theorem persist_roundtrip :
    ∀ (newCart : List CartItemType) (currentLocId : Option String),
      decodeCart (encodeCart newCart) = some newCart ∧
      Effect.storageSet "cart" ∈ persistEffects newCart currentLocId ∧
      (newCart ≠ [] → truthy currentLocId = true →
        persistEffects newCart currentLocId =
          [Effect.storageSet "cart", Effect.storageSet "cartLocationId"]) ∧
      (newCart = [] ∨ truthy currentLocId = false →
        persistEffects newCart currentLocId =
          [Effect.storageSet "cart", Effect.storageRemove "cartLocationId"]) := by
  intro newCart currentLocId
  refine ⟨?_, ?_, ?_, ?_⟩
  · simpa [decodeCart, encodeCart] using decodeCartList_encode newCart
  · simp [persistEffects]
  · intro hne htr
    have hlen : 0 < newCart.length := List.length_pos.mpr hne
    simp [persistEffects, hlen, htr]
  · intro h
    rcases h with rfl | hfalse
    · simp [persistEffects]
    · simp [persistEffects, hfalse]

/-- Witness for C7: a one-item cart round-trips through the stored
JSON value, and with a selected location it sets `cartLocationId`. -/
theorem persist_roundtrip_witness :
    decodeCart (encodeCart [⟨"a", "A", 5, 2⟩]) = some [⟨"a", "A", 5, 2⟩] ∧
    persistEffects [⟨"a", "A", 5, 2⟩] (some "loc1") =
      [Effect.storageSet "cart", Effect.storageSet "cartLocationId"] := by
  refine ⟨(persist_roundtrip [⟨"a", "A", 5, 2⟩] (some "loc1")).1, ?_⟩
  exact (persist_roundtrip [⟨"a", "A", 5, 2⟩] (some "loc1")).2.2.1
    (by decide) (by decide)

/-- C10: on Cart mount, a non-empty saved cart with a saved
`cartLocationId` differing from the currently selected location's id
is cleared (in-memory cart emptied, `cart` key removed); with an empty
saved cart, no saved id, or matching ids, the saved cart is kept. -/
theorem cart_cleared_on_location_change :
    ∀ (currentLocId : Option String) (savedId : String)
      (savedCart : List CartItemType),
      (savedCart ≠ [] → savedId ≠ "" → some savedId ≠ currentLocId →
        locationChangeEffect currentLocId (some savedId) savedCart =
          ([Effect.storageRemove "cart", Effect.toast "info"], [])) ∧
      (savedCart = [] →
        locationChangeEffect currentLocId (some savedId) savedCart =
          ([], savedCart)) ∧
      (locationChangeEffect currentLocId none savedCart = ([], savedCart)) ∧
      (currentLocId = some savedId →
        locationChangeEffect currentLocId (some savedId) savedCart =
          ([], savedCart)) := by
  intro currentLocId savedId savedCart
  refine ⟨?_, ?_, ?_, ?_⟩
  · intro hne hid hdiff
    have hlen : 0 < savedCart.length := List.length_pos.mpr hne
    have hbeq : (some savedId == currentLocId) = false := by
      cases currentLocId with
      | none => rfl
      | some cur =>
        have : savedId ≠ cur := fun h => hdiff (by rw [h])
        simpa using this
    simp [locationChangeEffect, truthy, hlen, hid, hbeq]
  · intro h
    simp [locationChangeEffect, h]
  · simp [locationChangeEffect, truthy]
  · intro h
    simp [locationChangeEffect, h]

/-- Witness for C10: a one-item cart saved for location `"l1"` is
cleared when the selected location is `"l2"`, and kept when it is
`"l1"`. -/
theorem cart_cleared_on_location_change_witness :
    locationChangeEffect (some "l2") (some "l1") [⟨"a", "A", 5, 1⟩] =
      ([Effect.storageRemove "cart", Effect.toast "info"], []) ∧
    locationChangeEffect (some "l1") (some "l1") [⟨"a", "A", 5, 1⟩] =
      ([], [⟨"a", "A", 5, 1⟩]) := by
  constructor
  · exact (cart_cleared_on_location_change (some "l2") "l1" [⟨"a", "A", 5, 1⟩]).1
      (by decide) (by decide) (by decide)
  · exact (cart_cleared_on_location_change (some "l1") "l1"
      [⟨"a", "A", 5, 1⟩]).2.2.2 rfl

/-- C5 counterexample: `confirmSelection` writes the
`selectedPickupTime` key, which is neither a cart key nor a
selected-location key, so local storage is not written only under the
cart and selected-location keys. -/
theorem pickupTime_key_outside_cart_and_location_keys :
    "selectedPickupTime" ∈ storageKeys
      (confirmSelection (some ⟨"10:00", some 2⟩)
        (some [⟨"10:00", some 2⟩]) true).1 ∧
    "selectedPickupTime" ∉ cartKeys ++ selectedLocationKeys := by
  constructor
  · decide
  · decide

/-- C5 amended: every local-storage key written by any storage-writing
operation of the application lies among the cart keys, the
selected-location keys, and the selected-pickup-time keys (the last
two written by `confirmSelection` in `PickUpTime.tsx`). -/
theorem storage_keys_bounded :
    ∀ (newCart savedCart cart : List CartItemType)
      (locId savedId pid data selLocId : Option String)
      (slot : Option Slot) (fetched : Option (List Slot))
      (ok isScanning found : Bool) (env : PlaceOrderEnv)
      (fetchedOrder currentOrder : Option ScannedOrder),
      (∀ k ∈ storageKeys (persistEffects newCart locId),
        k ∈ cartKeys ++ selectedLocationKeys ++ pickupTimeKeys) ∧
      (∀ k ∈ storageKeys handleClearCartEffects,
        k ∈ cartKeys ++ selectedLocationKeys ++ pickupTimeKeys) ∧
      (∀ k ∈ storageKeys (placeOrder pid cart env),
        k ∈ cartKeys ++ selectedLocationKeys ++ pickupTimeKeys) ∧
      (∀ k ∈ storageKeys (locationChangeEffect locId savedId savedCart).1,
        k ∈ cartKeys ++ selectedLocationKeys ++ pickupTimeKeys) ∧
      (∀ k ∈ storageKeys (confirmSelection slot fetched ok).1,
        k ∈ cartKeys ++ selectedLocationKeys ++ pickupTimeKeys) ∧
      (∀ k ∈ storageKeys (handleBarcodeScanned isScanning data fetchedOrder).1,
        k ∈ cartKeys ++ selectedLocationKeys ++ pickupTimeKeys) ∧
      (∀ k ∈ storageKeys (markCompleted currentOrder ok).1,
        k ∈ cartKeys ++ selectedLocationKeys ++ pickupTimeKeys) ∧
      (∀ k ∈ storageKeys selectStorePick,
        k ∈ cartKeys ++ selectedLocationKeys ++ pickupTimeKeys) ∧
      (∀ k ∈ storageKeys handleUseCurrentLocation,
        k ∈ cartKeys ++ selectedLocationKeys ++ pickupTimeKeys) ∧
      (∀ k ∈ storageKeys (handleConfirmLocation selLocId found),
        k ∈ cartKeys ++ selectedLocationKeys ++ pickupTimeKeys) ∧
      (∀ k ∈ storageKeys productDetailsAddEffects,
        k ∈ cartKeys ++ selectedLocationKeys ++ pickupTimeKeys) ∧
      (∀ k ∈ storageKeys productCardAddEffects,
        k ∈ cartKeys ++ selectedLocationKeys ++ pickupTimeKeys) ∧
      (∀ k ∈ storageKeys featureAddEffects,
        k ∈ cartKeys ++ selectedLocationKeys ++ pickupTimeKeys) ∧
      (∀ k ∈ storageKeys employeeHistoryAddEffects,
        k ∈ cartKeys ++ selectedLocationKeys ++ pickupTimeKeys) ∧
      (∀ k ∈ storageKeys employeeViewAddEffects,
        k ∈ cartKeys ++ selectedLocationKeys ++ pickupTimeKeys) ∧
      (∀ k ∈ storageKeys reorderItemsEffects,
        k ∈ cartKeys ++ selectedLocationKeys ++ pickupTimeKeys) := by
  intro newCart savedCart cart locId savedId pid data selLocId slot fetched
    ok isScanning found env fetchedOrder currentOrder
  refine ⟨?_, ?_, ?_, ?_, ?_, ?_, ?_, ?_, ?_, ?_, ?_, ?_, ?_, ?_, ?_, ?_⟩
  · intro k hk
    by_cases hc : (decide (newCart.length > 0) && truthy locId) = true <;>
      simp [persistEffects, hc, storageKeys] at hk <;>
      rcases hk with rfl | rfl <;> decide
  · intro k hk
    simp [handleClearCartEffects, storageKeys] at hk
    rcases hk with rfl | rfl <;> decide
  · intro k hk
    obtain ⟨oi, vp, iok⟩ := env
    cases pid with
    | none => simp [placeOrder, storageKeys] at hk
    | some p =>
      cases oi with
      | none => simp [placeOrder, storageKeys] at hk
      | some o =>
        by_cases hl : vp.length ≠ cart.length
        · simp [placeOrder, hl, storageKeys] at hk
        · cases iok <;> simp [placeOrder, hl, storageKeys] at hk
          rcases hk with rfl | rfl <;> decide
  · intro k hk
    unfold locationChangeEffect at hk
    split at hk
    · simp [storageKeys] at hk
      subst hk
      decide
    · simp [storageKeys] at hk
  · intro k hk
    cases slot with
    | none => simp [confirmSelection, storageKeys] at hk
    | some s =>
      by_cases hc : (s.capacity == some 0) = true
      · simp [confirmSelection, hc, storageKeys] at hk
      · cases fetched with
        | none => simp [confirmSelection, hc, storageKeys] at hk
        | some hours =>
          cases ok <;> simp [confirmSelection, hc, storageKeys] at hk
          rcases hk with rfl | rfl <;> decide
  · intro k hk
    by_cases hs : (!isScanning || !truthy data) = true
    · simp [handleBarcodeScanned, hs, storageKeys] at hk
    · cases fetchedOrder <;> simp [handleBarcodeScanned, hs, storageKeys] at hk
  · intro k hk
    cases currentOrder <;> cases ok <;> simp [markCompleted, storageKeys] at hk
  · intro k hk
    simp [selectStorePick, storageKeys] at hk
    subst hk
    decide
  · intro k hk
    simp [handleUseCurrentLocation, storageKeys] at hk
    rcases hk with rfl | rfl <;> decide
  · intro k hk
    cases selLocId with
    | none => simp [handleConfirmLocation, storageKeys] at hk
    | some s =>
      cases found <;> simp [handleConfirmLocation, storageKeys] at hk
      rcases hk with rfl | rfl <;> decide
  · intro k hk
    simp [productDetailsAddEffects, storageKeys] at hk
    subst hk
    decide
  · intro k hk
    simp [productCardAddEffects, storageKeys] at hk
    subst hk
    decide
  · intro k hk
    simp [featureAddEffects, storageKeys] at hk
    subst hk
    decide
  · intro k hk
    simp [employeeHistoryAddEffects, storageKeys] at hk
    subst hk
    decide
  · intro k hk
    simp [employeeViewAddEffects, storageKeys] at hk
    subst hk
    decide
  · intro k hk
    simp [reorderItemsEffects, storageKeys] at hk
    subst hk
    decide

/-- Witness for C5 (amended): the `cart` key written by `persist` on
an empty cart with no location lies in the allowed key set. -/
theorem storage_keys_bounded_witness :
    "cart" ∈ cartKeys ++ selectedLocationKeys ++ pickupTimeKeys :=
  (storage_keys_bounded [] [] [] none none none none none none none
      true true true ⟨none, [], true⟩ none none).1 "cart" (by decide)

end Storefront
